import Mathlib

/-!
Verification of the resume-builder core: the data model (elements and sections
positioned on a canvas), the reading-order linearizer, the ATS scoring engine,
the HTML/plain-text renderers and the template fill engine.

The definitions below are shallow embeddings of the JavaScript source:

* `src/resume-engine/src/utils/helpers.js` — geometry helpers, the
  reading-order comparator `sortByReadingOrder`, `escapeHtml`;
* `src/resume-engine/src/utils/cleanForJSON.js` (constants part) —
  `ATS_FRIENDLY_FONTS`, `ATS_SECTION_HEADERS`, `ATS_KEYWORDS`;
* the ATS scoring hook (`useATSScore`) — `checkRequiredSections`,
  `checkContactInfo`, `checkFontCompatibility`, `checkKeywords`,
  `checkFormatting`, `analyzeResume`, `getATSExportData`;
* the sections hook (`useSections`) — `getSectionHierarchy`;
* `src/resume-egnine-server/server.js` — `calculateATSScore`,
  `optimizeContent`, `generateSummary`, the fill logic of
  `POST /api/resume/generate`, `generateResumeHTML`, `buildElementStyles`,
  `escapeHTML`;
* `src/resume-engine/src/hooks/useTemplateStorage.js` — `exportATSHTML`,
  `exportPlainText`.

JavaScript numbers are modelled as exact rationals (`ℚ`); all values that the
claims exercise are small integers, where JS float arithmetic is exact.
Strings are Lean `String`s (lists of characters); the data handled by the
repository is ASCII, so ASCII case-mapping is used.  JS `Array.prototype.sort`
(a stable sort) is modelled by Mathlib's stable `List.insertionSort`, which
produces the same output for every consistent comparator.
-/

namespace Builder

/-- JS truthiness of an optional string: `undefined`, `null` and `""` are falsy. -/
def truthyStr : Option String → Bool
  | none => false
  | some s => s != ""

/-- JS `o || d` for an optional string: the default replaces falsy values. -/
def orDefault (o : Option String) (d : String) : String :=
  match o with
  | some s => if s = "" then d else s
  | none => d

/-- JS truthiness of an optional number: `undefined`, `null` and `0` are falsy. -/
def truthyNum : Option ℚ → Bool
  | none => false
  | some q => q != 0

/-- JS `o || d` for an optional number. -/
def orDefaultNum (o : Option ℚ) (d : ℚ) : ℚ :=
  match o with
  | some q => if q = 0 then d else q
  | none => d

/-- Lowercase a string, character by character (ASCII, as in the repository's data). -/
def lowerStr (s : String) : String := ⟨s.data.map Char.toLower⟩

/-- Substring occurrence over character lists; `containsSeq pat s` is true when
`pat` is a prefix of some suffix of `s`, i.e. occurs contiguously inside `s`.
This is JS `s.includes(pat)`. -/
def containsSeq (pat : List Char) : List Char → Bool
  | [] => pat.isPrefixOf []
  | c :: rest => pat.isPrefixOf (c :: rest) || containsSeq pat rest

/-- JS `haystack.includes(needle)` on strings. -/
def strIncludes (s pat : String) : Bool := containsSeq pat.data s.data

/-- An Element: a leaf content node of the canvas model (see `cleanElements` in
`cleanForJSON.js` for the exact field set).  Optional fields model properties
that may be absent (`undefined`/`null`) on the JS objects. -/
structure Element where
  id : String
  type : Option String
  content : String
  x : ℚ
  y : ℚ
  width : ℚ
  height : ℚ
  fontSize : Option ℚ
  fontWeight : Option String
  fontFamily : Option String
  color : Option String
  textAlign : Option String
  lineHeight : Option ℚ
  parentSection : Option String
  semanticTag : Option String
  atsField : Option String
  deriving DecidableEq, Repr

/-- A Section: a container with geometry, a title, a content-type discriminator
and an optional parent reference (see `cleanSections` in `cleanForJSON.js`).
`filled`/`itemCount` are the properties the server's fill step may add to a
section object; on templates they are absent (`false`/`none`). -/
structure Sect where
  id : String
  title : String
  type : Option String
  x : ℚ
  y : ℚ
  width : ℚ
  height : ℚ
  contentType : Option String
  direction : Option String
  parentSection : Option String
  atsHeader : Option String
  readingOrder : Option ℚ
  filled : Bool
  itemCount : Option Nat
  deriving DecidableEq, Repr

/-- The JS comparator shared by `sortByReadingOrder` (helpers.js) and the inline
sorts of `getATSExportData`, `generateResumeHTML`, `exportATSHTML` and
`exportPlainText`:

    if (Math.abs(a.y - b.y) < 20) return a.x - b.x;
    return a.y - b.y;
-/
def readingOrderCompare (a b : Element) : ℚ :=
  if |a.y - b.y| < 20 then a.x - b.x else a.y - b.y

/-- `[...items].sort(cmp)`: JS sorts are stable and keep `a` before `b` whenever
`cmp(a,b) ≤ 0`; modelled by the stable `List.insertionSort`, which agrees with
the engine's stable sort on every consistent comparator. -/
def sortByReadingOrder (items : List Element) : List Element :=
  List.insertionSort (fun a b => readingOrderCompare a b ≤ 0) items

/-- `sections.sort((a, b) => a.y - b.y)`: the by-`y` sort used for sections. -/
def sortByY (secs : List Sect) : List Sect :=
  List.insertionSort (fun a b => a.y ≤ b.y) secs

/-- A bare element at a given position; the style/tag fields play no part in
sorting. -/
def mkEl (id : String) (x y : ℚ) : Element :=
  { id := id, type := some "text", content := id, x := x, y := y,
    width := 200, height := 30, fontSize := none, fontWeight := none,
    fontFamily := none, color := none, textAlign := none, lineHeight := none,
    parentSection := none, semanticTag := none, atsField := none }

/-- The element at `y = 100, x = 50` of the reading-order scenario. -/
def elY100X50 : Element := mkEl "a" 50 100

/-- The element at `y = 105, x = 10` of the reading-order scenario. -/
def elY105X10 : Element := mkEl "b" 10 105

/-- The element at `y = 200, x = 0` of the reading-order scenario. -/
def elY200X0 : Element := mkEl "c" 0 200

/-- The three pairwise comparator values of the scenario elements. -/
theorem scenario_comparisons :
    ¬ readingOrderCompare elY100X50 elY105X10 ≤ 0 ∧
      readingOrderCompare elY100X50 elY200X0 ≤ 0 ∧
      readingOrderCompare elY105X10 elY200X0 ≤ 0 := by
  refine ⟨?_, ?_, ?_⟩ <;>
    norm_num [readingOrderCompare, elY100X50, elY105X10, elY200X0, mkEl]

/-- Sorting the scenario elements yields `(105,10), (100,50), (200,0)`. -/
theorem scenario_sort_eq :
    sortByReadingOrder [elY100X50, elY105X10, elY200X0]
      = [elY105X10, elY100X50, elY200X0] := by
  obtain ⟨h1, h2, h3⟩ := scenario_comparisons
  simp [sortByReadingOrder, List.insertionSort, List.orderedInsert, h1, h2, h3]

/-- Claim C2, counterexample: on the three scenario elements the sort puts
`(y=105, x=10)` first — they are on the same line as `(y=100, x=50)`
(|105 − 100| = 5 < 20) and same-line items sort by ascending `x`, so `x = 10`
precedes `x = 50`.  The claimed output order `(100,50), (105,10), (200,0)` is
therefore wrong. -/
theorem reading_order_scenario_counterexample :
    sortByReadingOrder [elY100X50, elY105X10, elY200X0]
        = [elY105X10, elY100X50, elY200X0] ∧
      elY105X10 ≠ elY100X50 := by
  constructor
  · exact scenario_sort_eq
  · intro h
    simpa [elY105X10, elY100X50, mkEl] using congrArg Element.id h

/-- Claim C2 (amended): the comparator treats two items with `|a.y − b.y| < 20`
as one line and orders them by ascending `x`, otherwise by ascending `y`; on
the scenario elements the resulting order is `(y=105,x=10)`, `(y=100,x=50)`,
`(y=200,x=0)`. -/
theorem reading_order_sorts_by_line_then_x :
    sortByReadingOrder [elY100X50, elY105X10, elY200X0]
        = [elY105X10, elY100X50, elY200X0] ∧
      (∀ a b : Element, |a.y - b.y| < 20 → a.x < b.x →
        sortByReadingOrder [b, a] = [a, b]) ∧
      (∀ a b : Element, 20 ≤ |a.y - b.y| → a.y < b.y →
        sortByReadingOrder [b, a] = [a, b]) := by
  refine ⟨scenario_sort_eq, ?_, ?_⟩
  · intro a b hline hx
    have hline' : |b.y - a.y| < 20 := by rwa [abs_sub_comm]
    have hcmp : ¬ readingOrderCompare b a ≤ 0 := by
      rw [readingOrderCompare, if_pos hline']
      simp only [sub_nonpos, not_le]
      exact hx
    simp [sortByReadingOrder, List.insertionSort, List.orderedInsert, hcmp]
  · intro a b hline hy
    have hline' : ¬ |b.y - a.y| < 20 := by rw [abs_sub_comm]; exact not_lt.mpr hline
    have hcmp : ¬ readingOrderCompare b a ≤ 0 := by
      rw [readingOrderCompare, if_neg hline']
      simp only [sub_nonpos, not_le]
      exact hy
    simp [sortByReadingOrder, List.insertionSort, List.orderedInsert, hcmp]

/-- Claim C2, witness: the general same-line and cross-line clauses applied at
concrete elements. -/
theorem reading_order_sorts_by_line_then_x_witness :
    sortByReadingOrder [elY100X50, elY105X10] = [elY105X10, elY100X50] ∧
      sortByReadingOrder [elY200X0, elY100X50] = [elY100X50, elY200X0] := by
  constructor
  · exact (reading_order_sorts_by_line_then_x.2.1 elY105X10 elY100X50
      (by norm_num [elY105X10, elY100X50, mkEl])
      (by norm_num [elY105X10, elY100X50, mkEl]))
  · exact (reading_order_sorts_by_line_then_x.2.2 elY100X50 elY200X0
      (by norm_num [elY105X10, elY100X50, elY200X0, mkEl])
      (by norm_num [elY105X10, elY100X50, elY200X0, mkEl]))

/-! ### ATS scoring engine (the `useATSScore` hook and its constants) -/

/-- `ATS_FRIENDLY_FONTS` from the constants module. -/
def ATS_FRIENDLY_FONTS : List String :=
  ["Arial", "Calibri", "Cambria", "Georgia", "Garamond",
   "Helvetica", "Times New Roman", "Trebuchet MS", "Verdana", "Tahoma"]

/-- The `aliases` lists of `ATS_SECTION_HEADERS` for the keys that
`checkRequiredSections` consults. -/
def sectionHeaderAliases : String → List String
  | "experience" =>
      ["Work Experience", "Professional Experience", "Employment History", "Work History"]
  | "education" =>
      ["Academic Background", "Educational Background", "Academic History"]
  | "skills" =>
      ["Technical Skills", "Core Competencies", "Areas of Expertise", "Proficiencies"]
  | _ => []

/-- `Object.values(ATS_KEYWORDS).flat()`: the keyword categories in insertion
order (leadership, achievement, technical, communication, analytical,
organizational).  `managed` occurs twice, as in the source. -/
def ATS_KEYWORDS_FLAT : List String :=
  ["led", "managed", "directed", "supervised", "coordinated",
   "mentored", "trained", "delegated", "oversaw", "headed",
   "achieved", "accomplished", "delivered", "exceeded", "improved",
   "increased", "reduced", "optimized", "streamlined", "saved",
   "developed", "implemented", "designed", "built", "engineered",
   "programmed", "automated", "integrated", "deployed", "maintained",
   "presented", "negotiated", "collaborated", "communicated", "liaised",
   "facilitated", "articulated", "persuaded", "influenced", "advocated",
   "analyzed", "evaluated", "assessed", "researched", "investigated",
   "identified", "diagnosed", "solved", "resolved", "troubleshot",
   "organized", "planned", "scheduled", "prioritized", "managed",
   "administered", "executed", "launched", "initiated", "established"]

/-- `getAllContent`: element contents joined with spaces, a separating space,
section titles joined with spaces, all lowercased. -/
def getAllContent (elements : List Element) (sections : List Sect) : String :=
  lowerStr (String.intercalate " " (elements.map (·.content)) ++ " " ++
    String.intercalate " " (sections.map (·.title)))

/-- Result record of `checkRequiredSections`. -/
structure SectionCheck where
  missing : List String
  present : List String
  score : ℚ
  deriving DecidableEq, Repr

/-- The `requiredHeaders` of `checkRequiredSections`. -/
def requiredHeaders : List String := ["experience", "education", "skills"]

/-- A required header is found when some section title contains it, or contains
one of its lowercased aliases. -/
def headerFound (sections : List Sect) (header : String) : Bool :=
  (sections.map fun s => lowerStr s.title).any fun title =>
    strIncludes title header ||
      (sectionHeaderAliases header).any fun al => strIncludes title (lowerStr al)

/-- `checkRequiredSections`: presence of experience/education/skills; score is
`present / 3 * 100`. -/
def checkRequiredSections (sections : List Sect) : SectionCheck :=
  let present := requiredHeaders.filter (headerFound sections)
  let missing := requiredHeaders.filter fun h => !(headerFound sections h)
  { missing := missing, present := present,
    score := (present.length : ℚ) / (requiredHeaders.length : ℚ) * 100 }

/-- JS `\w` on the repository's ASCII data: letters, digits, underscore. -/
def isWordChar (c : Char) : Bool := c.isAlphanum || c = '_'

/-- The `[\w.-]` character class of the e-mail regex. -/
def isWordDotDash (c : Char) : Bool := isWordChar c || c = '.' || c = '-'

/-- JS `\s` on ASCII data: space, tab, newline, carriage return, vertical tab,
form feed. -/
def isJsSpace (c : Char) : Bool :=
  c = ' ' || c = '\t' || c = '\n' || c = '\r' || c = '\x0b' || c = '\x0c'

/-- Character of `s` at index `i` (NUL when out of range; NUL belongs to none of
the character classes used here, so out-of-range positions never match). -/
def charAt (s : List Char) (i : Nat) : Char := (s.get? i).getD '\x00'

/-- `.test` of the e-mail regex `[\w.-]+@[\w.-]+\.\w+`: an unanchored match
exists iff some `@` is preceded by a `[\w.-]` character and followed by a
non-empty `[\w.-]` run, a literal dot and a `\w` character (the existentials
model the regex engine's backtracking). -/
def emailTest (s : List Char) : Bool :=
  (List.range s.length).any fun i =>
    (charAt s i == '@') && decide (1 ≤ i) && isWordDotDash (charAt s (i - 1)) &&
      ((List.range s.length).any fun k =>
        decide (i + 2 ≤ k) && (charAt s k == '.') &&
          decide (k + 1 < s.length) && isWordChar (charAt s (k + 1)) &&
          ((List.range (k - (i + 1))).all fun j => isWordDotDash (charAt s (i + 1 + j))))

/-- The `[-.\s]` separator class of the phone regex. -/
def isSepChar (c : Char) : Bool := c = '-' || c = '.' || isJsSpace c

/-- `n` consecutive digits starting at index `i`. -/
def digitsAt (s : List Char) (i n : Nat) : Bool :=
  (List.range n).all fun j => (charAt s (i + j)).isDigit

/-- A match of the phone regex `\(?\d{3}\)?[-.\s]?\d{3}[-.\s]?\d{4}` starting at
index `i`; each optional token is an existential choice over the number of
characters it consumes (0 or 1), modelling backtracking. -/
def phoneMatchAt (s : List Char) (i : Nat) : Bool :=
  [0, 1].any fun op =>
    (op == 0 || charAt s i == '(') &&
      (digitsAt s (i + op) 3 &&
        ([0, 1].any fun cp =>
          (cp == 0 || charAt s (i + op + 3) == ')') &&
            ([0, 1].any fun s1 =>
              (s1 == 0 || isSepChar (charAt s (i + op + 3 + cp))) &&
                (digitsAt s (i + op + 3 + cp + s1) 3 &&
                  ([0, 1].any fun s2 =>
                    (s2 == 0 || isSepChar (charAt s (i + op + 3 + cp + s1 + 3))) &&
                      digitsAt s (i + op + 3 + cp + s1 + 3 + s2) 4)))))

/-- `.test` of the phone regex: a match starting at some index. -/
def phoneTest (s : List Char) : Bool :=
  (List.range s.length).any fun i => phoneMatchAt s i

/-- Result record of `checkContactInfo`. -/
structure ContactCheck where
  email : Bool
  phone : Bool
  linkedin : Bool
  location : Bool
  score : ℚ
  missing : List String
  deriving DecidableEq, Repr

/-- The ordered checklist of `checkContactInfo`, as the JS object's entries:
email, phone, linkedin, and `location` hard-coded to `false` in the source
("Would need more sophisticated detection"). -/
def contactChecklist (elements : List Element) (sections : List Sect) :
    List (String × Bool) :=
  let content := (getAllContent elements sections).data
  [("email", emailTest content),
   ("phone", phoneTest content),
   ("linkedin", containsSeq "linkedin".data content),
   ("location", false)]

/-- `checkContactInfo`: score is `found / total * 100` over the four-entry
checklist (`/linkedin/i.test` on the already-lowercased content is the
substring test). -/
def checkContactInfo (elements : List Element) (sections : List Sect) :
    ContactCheck :=
  let checks := contactChecklist elements sections
  let found := (checks.filter (·.2)).length
  let total := checks.length
  { email := emailTest (getAllContent elements sections).data,
    phone := phoneTest (getAllContent elements sections).data,
    linkedin := containsSeq "linkedin".data (getAllContent elements sections).data,
    location := false,
    score := (found : ℚ) / (total : ℚ) * 100,
    missing := (checks.filter fun p => !p.2).map (·.1) }

/-- JS `new Set(list)` (then iterated): the distinct values of `list` in
first-occurrence order. -/
def jsSet {α : Type} [DecidableEq α] (l : List α) : List α :=
  l.foldl (fun acc s => if s ∈ acc then acc else acc ++ [s]) []

/-- Result record of `checkFontCompatibility`. -/
structure FontCheck where
  compatible : List String
  incompatible : List String
  score : ℚ
  deriving DecidableEq, Repr

/-- `checkFontCompatibility`: distinct `fontFamily` values (defaulting to
`Arial`), partitioned against the allow-list; an empty font set scores 100. -/
def checkFontCompatibility (elements : List Element) : FontCheck :=
  let usedFonts := jsSet (elements.map fun el => orDefault el.fontFamily "Arial")
  let compatible := usedFonts.filter fun f => ATS_FRIENDLY_FONTS.contains f
  let incompatible := usedFonts.filter fun f => !ATS_FRIENDLY_FONTS.contains f
  { compatible := compatible, incompatible := incompatible,
    score := if usedFonts.length = 0 then 100
      else (compatible.length : ℚ) / (usedFonts.length : ℚ) * 100 }

/-- The `commonWords` stop-list of `extractKeywords`. -/
def commonWords : List String :=
  ["the", "a", "an", "and", "or", "but", "in", "on", "at", "to", "for",
   "of", "with", "by", "from", "as", "is", "was", "are", "were", "been",
   "be", "have", "has", "had", "do", "does", "did", "will", "would", "could",
   "should", "may", "might", "must", "shall", "can", "need", "our", "your",
   "we", "you", "they", "this", "that", "these", "those"]

/-- `text.split(/\s+/).filter(Boolean)`: the maximal non-whitespace runs. -/
def nonSpaceRuns (s : List Char) : List (List Char) :=
  (s.splitOnP isJsSpace).filter (· != [])

/-- `extractKeywords` (job-description helper): lowercase, strip non-word
non-space characters, split, keep words longer than 3 letters that are not
stop-words, rank by frequency (stable descending sort) and take the first 20.
JS object keys are modelled in first-occurrence order (no claim depends on the
tie order of equal-frequency words). -/
def extractKeywords (text : String) : List String :=
  let cleaned := (lowerStr text).data.filter fun c => isWordChar c || isJsSpace c
  let words := (nonSpaceRuns cleaned).filter fun w =>
    decide (3 < w.length) && !(commonWords.contains (String.mk w))
  let entries := (jsSet words).map fun w => (w, words.count w)
  let sorted := List.insertionSort (fun a b => b.2 ≤ a.2) entries
  (sorted.take 20).map fun e => String.mk e.1

/-- Result record of `checkKeywords`. -/
structure KeywordCheck where
  found : List String
  missing : List String
  score : ℚ
  deriving DecidableEq, Repr

/-- The `foundKeywords` set of `checkKeywords`: keywords of the flat list whose
lowercasing occurs in the content, in first-found order, each counted once. -/
def foundKeywords (content : List Char) : List String :=
  ATS_KEYWORDS_FLAT.foldl
    (fun acc k =>
      if containsSeq (lowerStr k).data content && !(acc.contains k)
      then acc ++ [k] else acc) []

/-- `checkKeywords`: 5 points per distinct keyword found, capped at 100; with a
(truthy) job description, its extracted keywords that are absent from the
content are reported as missing. -/
def checkKeywords (elements : List Element) (sections : List Sect)
    (jobDescription : String) : KeywordCheck :=
  let content := (getAllContent elements sections).data
  let found := foundKeywords content
  let missing :=
    if jobDescription = "" then []
    else (extractKeywords jobDescription).filter fun k =>
      !(containsSeq (lowerStr k).data content)
  { found := found, missing := missing,
    score := min 100 ((found.length : ℚ) * 5) }

/-- A formatting issue (`type` and `message` of the JS object). -/
structure FormatIssue where
  itype : String
  message : String
  deriving DecidableEq, Repr

/-- Result record of `checkFormatting`. -/
structure FormatCheck where
  issues : List FormatIssue
  score : ℚ
  deriving DecidableEq, Repr

/-- The punctuation the special-character regex `[^\w\s.,!?@#$%&*()-]` allows. -/
def isAllowedPunct (c : Char) : Bool :=
  c = '.' || c = ',' || c = '!' || c = '?' || c = '@' || c = '#' ||
    c = '$' || c = '%' || c = '&' || c = '*' || c = '(' || c = ')' || c = '-'

/-- Number of special characters (`content.match(/[^\w\s.,!?@#$%&*()-]/g)`). -/
def specialCharCount (content : List Char) : Nat :=
  (content.filter fun c => !(isWordChar c || isJsSpace c || isAllowedPunct c)).length

/-- `content.split(/\s+/).filter(Boolean).length`. -/
def wordCount (content : List Char) : Nat := (nonSpaceRuns content).length

/-- `checkFormatting`: starts at 100 and subtracts 10 for a horizontal
`list-sections` section, 20 for an image element, 5 for more than 10 special
characters, 10 for fewer than 100 words; floored at 0. -/
def checkFormatting (elements : List Element) (sections : List Sect) : FormatCheck :=
  let hasComplexLayout := sections.any fun s =>
    s.direction == some "horizontal" && s.contentType == some "list-sections"
  let hasImages := elements.any fun el => el.type == some "image"
  let content := (getAllContent elements sections).data
  let issues :=
    (if hasComplexLayout then
      [FormatIssue.mk "warning"
        "Complex multi-column layouts may not parse correctly in some ATS systems"]
     else []) ++
    (if hasImages then
      [FormatIssue.mk "error" "Images are not readable by ATS systems"] else []) ++
    (if 10 < specialCharCount content then
      [FormatIssue.mk "warning" "Excessive special characters may cause parsing issues"]
     else []) ++
    (if wordCount content < 100 then
      [FormatIssue.mk "info" "Resume content seems thin. Consider adding more detail."]
     else [])
  let score : ℚ := 100 - (if hasComplexLayout then 10 else 0)
    - (if hasImages then 20 else 0)
    - (if 10 < specialCharCount content then 5 else 0)
    - (if wordCount content < 100 then 10 else 0)
  { issues := issues, score := max 0 score }

/-- A suggestion (`type`, `priority`, `message`; the `action`/`data` payloads
carry no further information the claims consult and are omitted). -/
structure Suggestion where
  stype : String
  priority : String
  message : String
  deriving DecidableEq, Repr

/-- The five check results of an analysis. -/
structure Breakdown where
  sections : SectionCheck
  contact : ContactCheck
  fonts : FontCheck
  keywords : KeywordCheck
  formatting : FormatCheck
  deriving DecidableEq, Repr

/-- The analysis returned by `analyzeResume`. -/
structure Analysis where
  totalScore : ℤ
  breakdown : Breakdown
  suggestions : List Suggestion
  deriving DecidableEq, Repr

/-- `analyzeResume`: runs the five checks, totals them with weights
0.25/0.15/0.1/0.3/0.2 through `Math.round`, and assembles the suggestion list
(missing sections and missing contact info are `high`; fonts and keywords
`medium`; formatting issues `high` only for `error`-type issues, else `low`). -/
def analyzeResume (elements : List Element) (sections : List Sect)
    (jobDescription : String) : Analysis :=
  let sectionCheck := checkRequiredSections sections
  let contactCheck := checkContactInfo elements sections
  let fontCheck := checkFontCompatibility elements
  let keywordCheck := checkKeywords elements sections jobDescription
  let formatCheck := checkFormatting elements sections
  let totalScore : ℤ := round
    (sectionCheck.score * (0.25 : ℚ) + contactCheck.score * (0.15 : ℚ) +
      fontCheck.score * (0.1 : ℚ) + keywordCheck.score * (0.3 : ℚ) +
      formatCheck.score * (0.2 : ℚ))
  let suggestions :=
    (if 0 < sectionCheck.missing.length then
      [Suggestion.mk "section" "high"
        ("Add missing sections: " ++ String.intercalate ", " sectionCheck.missing)]
     else []) ++
    (if 0 < contactCheck.missing.length then
      [Suggestion.mk "contact" "high"
        ("Add missing contact info: " ++ String.intercalate ", " contactCheck.missing)]
     else []) ++
    (if 0 < fontCheck.incompatible.length then
      [Suggestion.mk "font" "medium"
        ("Replace non-ATS fonts: " ++ String.intercalate ", " fontCheck.incompatible)]
     else []) ++
    (if 0 < keywordCheck.missing.length then
      [Suggestion.mk "keyword" "medium"
        ("Consider adding keywords: " ++
          String.intercalate ", " (keywordCheck.missing.take 5))]
     else []) ++
    formatCheck.issues.map fun issue =>
      Suggestion.mk "format" (if issue.itype = "error" then "high" else "low")
        issue.message
  { totalScore := totalScore,
    breakdown :=
      { sections := sectionCheck, contact := contactCheck, fonts := fontCheck,
        keywords := keywordCheck, formatting := formatCheck },
    suggestions := suggestions }

/-- A section child element as projected by `getATSExportData`. -/
structure ExportSectionElement where
  content : String
  type : Option String
  semanticTag : String
  deriving DecidableEq, Repr

/-- A header element as projected by `getATSExportData`. -/
structure ExportHeaderElement where
  content : String
  type : Option String
  semanticTag : String
  atsField : Option String
  deriving DecidableEq, Repr

/-- A top-level section with its child elements, as in `getATSExportData`. -/
structure ExportSection where
  title : String
  atsHeader : Option String
  elements : List ExportSectionElement
  deriving DecidableEq, Repr

/-- The linearized document of `getATSExportData`: header stream plus top-level
sections. -/
structure ExportData where
  header : List ExportHeaderElement
  sections : List ExportSection
  deriving DecidableEq, Repr

/-- `getATSExportData` (useATSScore): elements in reading order, top-level
sections sorted by `y` with their child elements, and the out-of-section
header elements.  The `metadata` field (score plus an `analyzedAt` wall-clock
timestamp) is impure and outside the model. -/
def getATSExportData (elements : List Element) (sections : List Sect) :
    ExportData :=
  let sortedElements := sortByReadingOrder elements
  let sectionHierarchy :=
    (sortByY (sections.filter fun s => !truthyStr s.parentSection)).map fun s =>
      { title := s.title, atsHeader := s.atsHeader,
        elements :=
          (sortedElements.filter fun el => el.parentSection == some s.id).map
            fun el =>
              { content := el.content, type := el.type,
                semanticTag := orDefault el.semanticTag "p" } }
  let headerElements :=
    (sortedElements.filter fun el => !truthyStr el.parentSection).map fun el =>
      { content := el.content, type := el.type,
        semanticTag := orDefault el.semanticTag "p", atsField := el.atsField }
  { header := headerElements, sections := sectionHierarchy }

/-! ### Scoring facts: the empty resume, the contact checklist, score bounds -/

/-- Sections sub-score of the empty resume: 0. -/
theorem checkRequiredSections_empty_score : (checkRequiredSections []).score = 0 := by
  have h : requiredHeaders.filter (headerFound []) = [] := rfl
  simp [checkRequiredSections, h, requiredHeaders]
  exact ⟨rfl, rfl, rfl⟩

/-- Contact sub-score of the empty resume: 0. -/
theorem checkContactInfo_empty_score : (checkContactInfo [] []).score = 0 := by
  have h : (contactChecklist [] []).filter (·.2) = [] := rfl
  simp [checkContactInfo, h, contactChecklist]
  exact ⟨rfl, rfl, rfl⟩

/-- Keyword sub-score of the empty resume: 0. -/
theorem checkKeywords_empty_score : (checkKeywords [] [] "").score = 0 := by
  have h : foundKeywords (getAllContent [] []).data = [] := rfl
  simp [checkKeywords, h]

/-- Formatting sub-score of the empty resume: 90 (only the thin-content
penalty applies: the concatenated content `" "` has zero words). -/
theorem checkFormatting_empty_score : (checkFormatting [] []).score = 90 := by
  have h1 : specialCharCount (getAllContent [] []).data = 0 := rfl
  have h2 : wordCount (getAllContent [] []).data = 0 := rfl
  simp [checkFormatting, h1, h2]
  norm_num [max_def]

/-- Total score of the empty resume: round(0·0.25 + 0·0.15 + 100·0.1 + 0·0.3 +
90·0.2) = 28. -/
theorem analyzeResume_empty_total : (analyzeResume [] [] "").totalScore = 28 := by
  have hf : (checkFontCompatibility []).score = 100 := rfl
  simp only [analyzeResume, checkRequiredSections_empty_score,
    checkContactInfo_empty_score, checkKeywords_empty_score,
    checkFormatting_empty_score, hf]
  norm_num [round_eq]

/-- Claim C1, counterexample: the empty resume does not score 0 — the font
check is vacuously 100 and the formatting check 90, so the weighted total is
28. -/
theorem empty_resume_score_counterexample :
    (analyzeResume [] [] "").totalScore = 28 ∧
      (analyzeResume [] [] "").totalScore ≠ 0 := by
  refine ⟨analyzeResume_empty_total, ?_⟩
  rw [analyzeResume_empty_total]
  decide

/-- Claim C1 (amended): linearizing the empty resume yields an empty tree, and
scoring it yields total 28 — sections 0, contact 0, fonts 100 (vacuously),
keywords 0, formatting 90 after the thin-content penalty — with one
high-priority suggestion naming all three missing required sections, one
high-priority missing-contact suggestion, and a low-priority thin-content
note. -/
theorem empty_resume_analysis :
    getATSExportData [] [] = { header := [], sections := [] } ∧
      (analyzeResume [] [] "").totalScore = 28 ∧
      (analyzeResume [] [] "").breakdown.sections.score = 0 ∧
      (analyzeResume [] [] "").breakdown.sections.missing
        = ["experience", "education", "skills"] ∧
      (analyzeResume [] [] "").breakdown.contact.score = 0 ∧
      (analyzeResume [] [] "").breakdown.fonts.score = 100 ∧
      (analyzeResume [] [] "").breakdown.keywords.score = 0 ∧
      (analyzeResume [] [] "").breakdown.formatting.score = 90 ∧
      (analyzeResume [] [] "").suggestions =
        [Suggestion.mk "section" "high"
          "Add missing sections: experience, education, skills",
         Suggestion.mk "contact" "high"
          "Add missing contact info: email, phone, linkedin, location",
         Suggestion.mk "format" "low"
          "Resume content seems thin. Consider adding more detail."] := by
  refine ⟨rfl, analyzeResume_empty_total, checkRequiredSections_empty_score,
    rfl, checkContactInfo_empty_score, rfl, checkKeywords_empty_score,
    checkFormatting_empty_score, rfl⟩

/-- The all-three contact scenario: an element whose content holds an e-mail
address, a phone number and a LinkedIn handle. -/
def contactEl : Element := { mkEl "contact" 0 0 with
  content := "jane@x.com (555) 123-4567 linkedin.com/in/jane" }

/-- The contact sub-score of the all-three scenario evaluates to 75. -/
theorem contact_scenario_score : (checkContactInfo [contactEl] []).score = 75 := by
  have h : (contactChecklist [contactEl] []).filter (·.2) =
      [("email", true), ("phone", true), ("linkedin", true)] := rfl
  have htot : (contactChecklist [contactEl] []).length = 4 := rfl
  simp [checkContactInfo, h, htot]
  norm_num

/-- Claim C4, counterexample: an input containing an e-mail, a phone number and
"linkedin" yields a contact sub-score of 75, not 100 — the fixed checklist has
a fourth entry, `location`, hard-coded to false. -/
theorem contact_all_three_not_100 :
    (checkContactInfo [contactEl] []).score = 75 ∧
      (checkContactInfo [contactEl] []).score ≠ 100 := by
  refine ⟨contact_scenario_score, ?_⟩
  rw [contact_scenario_score]
  norm_num

/-- Filtering the four-entry checklist counts the true entries among the first
three (the fourth is false). -/
theorem contact_filter_length (a b c : Bool) (n1 n2 n3 n4 : String) :
    (([(n1, a), (n2, b), (n3, c), (n4, false)]).filter (·.2)).length
      = (if a then 1 else 0) + (if b then 1 else 0) + (if c then 1 else 0) := by
  cases a <;> cases b <;> cases c <;> rfl

/-- Claim C4 (amended): the contact sub-score is matched/total · 100 over a
fixed FOUR-entry checklist — e-mail regex, phone regex, "linkedin" substring,
plus a `location` entry that is always false — so an input matching all three
detectable items scores 75. -/
theorem contact_score_formula (elements : List Element) (sections : List Sect) :
    (checkContactInfo elements sections).location = false ∧
      (checkContactInfo elements sections).score =
        ((if (checkContactInfo elements sections).email then 1 else 0) +
          (if (checkContactInfo elements sections).phone then 1 else 0) +
          (if (checkContactInfo elements sections).linkedin then 1 else 0) : ℚ)
          / 4 * 100 ∧
      (checkContactInfo [contactEl] []).score = 75 := by
  refine ⟨rfl, ?_, contact_scenario_score⟩
  simp only [checkContactInfo, contactChecklist]
  rw [contact_filter_length]
  rw [show ([("email", emailTest (getAllContent elements sections).data),
      ("phone", phoneTest (getAllContent elements sections).data),
      ("linkedin", containsSeq "linkedin".data (getAllContent elements sections).data),
      ("location", false)].length : ℚ) = 4 from by norm_num]
  push_cast [apply_ite (Nat.cast : ℕ → ℚ)]
  norm_num

/-- Bounds of the sections sub-score. -/
theorem checkRequiredSections_score_bounds (sections : List Sect) :
    0 ≤ (checkRequiredSections sections).score ∧
      (checkRequiredSections sections).score ≤ 100 := by
  have hn : ((requiredHeaders.filter (headerFound sections)).length : ℚ) ≤ 3 := by
    have := List.length_filter_le (headerFound sections) requiredHeaders
    simp [requiredHeaders] at this
    exact_mod_cast this
  simp only [checkRequiredSections]
  rw [show ((requiredHeaders.length : ℚ)) = 3 from by norm_num [requiredHeaders]]
  constructor
  · positivity
  · rw [div_mul_eq_mul_div, div_le_iff₀ (by norm_num)]
    linarith [hn]

/-- Bounds of the contact sub-score. -/
theorem checkContactInfo_score_bounds (elements : List Element)
    (sections : List Sect) :
    0 ≤ (checkContactInfo elements sections).score ∧
      (checkContactInfo elements sections).score ≤ 100 := by
  have hlen : (contactChecklist elements sections).length = 4 := rfl
  have hn : (((contactChecklist elements sections).filter (·.2)).length : ℚ) ≤ 4 := by
    have := List.length_filter_le (·.2) (contactChecklist elements sections)
    rw [hlen] at this
    exact_mod_cast this
  simp only [checkContactInfo, hlen]
  constructor
  · positivity
  · rw [div_mul_eq_mul_div, div_le_iff₀ (by norm_num)]
    push_cast
    linarith [hn]

/-- Bounds of the font sub-score. -/
theorem checkFontCompatibility_score_bounds (elements : List Element) :
    0 ≤ (checkFontCompatibility elements).score ∧
      (checkFontCompatibility elements).score ≤ 100 := by
  simp only [checkFontCompatibility]
  by_cases h : (jsSet (elements.map fun el => orDefault el.fontFamily "Arial")).length = 0
  · simp [h]
  · simp only [h, if_false]
    have hle := List.length_filter_le (fun f => ATS_FRIENDLY_FONTS.contains f)
      (jsSet (elements.map fun el => orDefault el.fontFamily "Arial"))
    have hpos : (0 : ℚ) <
        ((jsSet (elements.map fun el => orDefault el.fontFamily "Arial")).length : ℚ) := by
      exact_mod_cast Nat.pos_of_ne_zero h
    constructor
    · positivity
    · rw [div_mul_eq_mul_div, div_le_iff₀ hpos]
      have : (((jsSet (elements.map fun el => orDefault el.fontFamily "Arial")).filter
          fun f => ATS_FRIENDLY_FONTS.contains f).length : ℚ) ≤
          ((jsSet (elements.map fun el => orDefault el.fontFamily "Arial")).length : ℚ) := by
        exact_mod_cast hle
      linarith

/-- Bounds of the keyword sub-score. -/
theorem checkKeywords_score_bounds (elements : List Element) (sections : List Sect)
    (jobDescription : String) :
    0 ≤ (checkKeywords elements sections jobDescription).score ∧
      (checkKeywords elements sections jobDescription).score ≤ 100 := by
  simp only [checkKeywords]
  constructor
  · apply le_min (by norm_num)
    positivity
  · exact min_le_left _ _

/-- Bounds of the formatting sub-score. -/
theorem checkFormatting_score_bounds (elements : List Element)
    (sections : List Sect) :
    0 ≤ (checkFormatting elements sections).score ∧
      (checkFormatting elements sections).score ≤ 100 := by
  simp only [checkFormatting]
  constructor
  · exact le_max_left _ _
  · apply max_le (by norm_num)
    split_ifs <;> norm_num

/-- `Math.round` of a rational in [0, 100] lies in [0, 100]. -/
theorem round_bounds_0_100 {x : ℚ} (h0 : 0 ≤ x) (h1 : x ≤ 100) :
    0 ≤ round x ∧ round x ≤ 100 := by
  rw [round_eq]
  constructor
  · rw [Int.le_floor]
    push_cast
    linarith
  · have : (⌊x + 1 / 2⌋ : ℤ) < 101 := by
      rw [Int.floor_lt]
      push_cast
      linarith
    omega

/-- Claim C5: for every input the five sub-scores lie in [0, 100] and the
rounded weighted total lies in [0, 100]. -/
theorem analyze_score_bounds (elements : List Element) (sections : List Sect)
    (jobDescription : String) :
    (0 ≤ (analyzeResume elements sections jobDescription).totalScore ∧
      (analyzeResume elements sections jobDescription).totalScore ≤ 100) ∧
      (0 ≤ (checkRequiredSections sections).score ∧
        (checkRequiredSections sections).score ≤ 100) ∧
      (0 ≤ (checkContactInfo elements sections).score ∧
        (checkContactInfo elements sections).score ≤ 100) ∧
      (0 ≤ (checkFontCompatibility elements).score ∧
        (checkFontCompatibility elements).score ≤ 100) ∧
      (0 ≤ (checkKeywords elements sections jobDescription).score ∧
        (checkKeywords elements sections jobDescription).score ≤ 100) ∧
      (0 ≤ (checkFormatting elements sections).score ∧
        (checkFormatting elements sections).score ≤ 100) := by
  obtain ⟨s10, s11⟩ := checkRequiredSections_score_bounds sections
  obtain ⟨s20, s21⟩ := checkContactInfo_score_bounds elements sections
  obtain ⟨s30, s31⟩ := checkFontCompatibility_score_bounds elements
  obtain ⟨s40, s41⟩ := checkKeywords_score_bounds elements sections jobDescription
  obtain ⟨s50, s51⟩ := checkFormatting_score_bounds elements sections
  refine ⟨?_, ⟨s10, s11⟩, ⟨s20, s21⟩, ⟨s30, s31⟩, ⟨s40, s41⟩, ⟨s50, s51⟩⟩
  simp only [analyzeResume]
  exact round_bounds_0_100 (by nlinarith) (by nlinarith)

/-! ### HTML rendering (server.js) and the section hierarchy (useSections) -/

/-- One global single-character replacement pass, `s.replace(/c/g, rep)`. -/
def replaceChar (c : Char) (rep : List Char) (s : List Char) : List Char :=
  s.flatMap fun x => if x = c then rep else [x]

/-- `escapeHTML` (server.js): the falsy-input guard, then five chained global
replaces — `&` first, then `<`, `>`, `"`, `'`. -/
def escapeHTML (s : String) : String :=
  if s = "" then ""
  else ⟨replaceChar '\'' "&#039;".data
    (replaceChar '"' "&quot;".data
      (replaceChar '>' "&gt;".data
        (replaceChar '<' "&lt;".data
          (replaceChar '&' "&amp;".data s.data))))⟩

/-- The character map of `escapeHtml` (helpers.js): one regex pass
`text.replace(/[&<>"']/g, m => map[m])` over exactly the five entities. -/
def escMap (c : Char) : List Char :=
  if c = '&' then "&amp;".data
  else if c = '<' then "&lt;".data
  else if c = '>' then "&gt;".data
  else if c = '"' then "&quot;".data
  else if c = '\'' then "&#039;".data
  else [c]

/-- `escapeHtml` (helpers.js): the simultaneous single-pass substitution. -/
def escapeHtml (s : String) : String := ⟨s.data.flatMap escMap⟩

/-- Decimal rendering of a JS number in a template literal; the repository's
style values are integers, which JS prints without a fractional part (general
float formatting is outside the model and unused by the claims). -/
def numToStr (q : ℚ) : String :=
  if q.den = 1 then toString q.num
  else toString q.num ++ "/" ++ toString q.den

/-- One conditional `styles.push` for a numeric property. -/
def pushIfNum (o : Option ℚ) (mk : ℚ → String) : List String :=
  match o with
  | some q => if q = 0 then [] else [mk q]
  | none => []

/-- One conditional `styles.push` for a string property. -/
def pushIfStr (o : Option String) (mk : String → String) : List String :=
  match o with
  | some v => if v = "" then [] else [mk v]
  | none => []

/-- `buildElementStyles` (server.js): only the six properties present (truthy)
on the element contribute, each as `property: value`, joined by `"; "`. -/
def buildElementStyles (el : Element) : String :=
  String.intercalate "; "
    (pushIfNum el.fontSize (fun q => "font-size: " ++ numToStr q ++ "pt") ++
      pushIfStr el.fontWeight (fun v => "font-weight: " ++ v) ++
      pushIfStr el.fontFamily (fun v => "font-family: " ++ v ++ ", sans-serif") ++
      pushIfStr el.color (fun v => "color: " ++ v) ++
      pushIfStr el.textAlign (fun v => "text-align: " ++ v) ++
      pushIfNum el.lineHeight (fun q => "line-height: " ++ numToStr q))

/-- The `options` object of the print route; only `format` is consulted. -/
structure RenderOptions where
  format : Option String
  deriving DecidableEq, Repr

/-- `options.format !== 'Letter'`. -/
def isA4opt (o : RenderOptions) : Bool := !(o.format == some "Letter")

/-- The fixed document head of `generateResumeHTML` — its template literal up
to and including `<body>`, with the three `isA4` interpolations. -/
def resumeHTMLHead (isA4 : Bool) : String :=
  "\n<!DOCTYPE html>\n<html lang=\"en\">\n<head>\n  <meta charset=\"UTF-8\">\n  <title>Resume</title>\n  <style>\n    @page \x7b\n      size: " ++
  (if isA4 then "A4" else "Letter") ++
  ";\n      margin: 0;\n    \x7d\n    \n    * \x7b\n      margin: 0;\n      padding: 0;\n      box-sizing: border-box;\n    \x7d\n    \n    body \x7b\n      font-family: Arial, Helvetica, sans-serif;\n      font-size: 11pt;\n      line-height: 1.4;\n      color: #333;\n      width: " ++
  (if isA4 then "210mm" else "8.5in") ++
  ";\n      min-height: " ++
  (if isA4 then "297mm" else "11in") ++
  ";\n      padding: 40px 50px;\n      background: white;\n    \x7d\n    \n    .element \x7b\n      margin-bottom: 8px;\n    \x7d\n    \n    .section \x7b\n      margin-bottom: 20px;\n    \x7d\n    \n    .section-title \x7b\n      font-size: 14pt;\n      font-weight: bold;\n      margin-bottom: 10px;\n      padding-bottom: 5px;\n      border-bottom: 2px solid #333;\n    \x7d\n    \n    .text-element \x7b\n      white-space: pre-wrap;\n    \x7d\n    \n    .list-item \x7b\n      margin-left: 20px;\n    \x7d\n  </style>\n</head>\n<body>\n"

/-- The top-level element `div` of `generateResumeHTML`. -/
def renderTopElement (el : Element) : String :=
  "\n  <div class=\"element " ++ orDefault el.type "text" ++
    "-element\" style=\"" ++ buildElementStyles el ++ "\">\n    " ++
    escapeHTML el.content ++ "\n  </div>\n"

/-- The in-section element `div` of `generateResumeHTML` (deeper indent). -/
def renderSectionElement (el : Element) : String :=
  "\n    <div class=\"element " ++ orDefault el.type "text" ++
    "-element\" style=\"" ++ buildElementStyles el ++ "\">\n      " ++
    escapeHTML el.content ++ "\n    </div>\n"

/-- `generateResumeHTML` (server.js): elements in reading order, then the root
sections (falsy `parentSection`) sorted by `y`, each with its title and its
child elements, inside the fixed head/tail. -/
def generateResumeHTML (elements : List Element) (sections : List Sect)
    (options : RenderOptions) : String :=
  let sortedElements := sortByReadingOrder elements
  let sortedSections := sortByY (sections.filter fun s => !truthyStr s.parentSection)
  resumeHTMLHead (isA4opt options) ++
    String.join (sortedElements.map renderTopElement) ++
    String.join (sortedSections.map fun s =>
      "\n  <div class=\"section\">\n    <div class=\"section-title\">" ++
        escapeHTML s.title ++ "</div>\n" ++
        String.join ((sortedElements.filter fun el =>
          el.parentSection == some s.id).map renderSectionElement) ++
        "\n  </div>\n") ++
    "\n</body>\n</html>\n"

/-- A node of the `getSectionHierarchy` output: a section and its children. -/
inductive HierNode where
  | node : Sect → List HierNode → HierNode

/-- `buildHierarchy` (useSections): the sections whose `parentSection` equals
the given parent id, sorted by `readingOrder || 0`, each with its recursively
built children.  The JS recursion carries no guard; here it is bounded by
explicit fuel, and the theorems show the outputs the claims consult are
independent of the fuel. -/
def buildHierarchy (sections : List Sect) : Nat → Option String → List HierNode
  | 0, _ => []
  | fuel + 1, pid =>
    (List.insertionSort
      (fun a b => orDefaultNum a.readingOrder 0 ≤ orDefaultNum b.readingOrder 0)
      (sections.filter fun s => s.parentSection == pid)).map
      fun s => HierNode.node s (buildHierarchy sections fuel (some s.id))

/-- `getSectionHierarchy()`: the hierarchy grown from the root
(`parentId = null`); one fuel level per section suffices for everything
reachable from the root. -/
def getSectionHierarchy (sections : List Sect) : List HierNode :=
  buildHierarchy sections (sections.length + 1) none

/-! ### Renderer facts: cycles, style attributes, escaping -/

/-- A bare section at a given vertical position. -/
def mkSect (id title : String) (y : ℚ) : Sect :=
  { id := id, title := title, type := none, x := 50, y := y, width := 500,
    height := 150, contentType := some "text", direction := some "vertical",
    parentSection := none, atsHeader := none, readingOrder := some 0,
    filled := false, itemCount := none }

/-- Section A of the two-section parent cycle (parent is B). -/
def cycleSectA : Sect := { mkSect "A" "Alpha" 100 with parentSection := some "B" }

/-- Section B of the two-section parent cycle (parent is A). -/
def cycleSectB : Sect := { mkSect "B" "Beta" 200 with parentSection := some "A" }

/-- Claim C3, counterexample: on a two-section parent cycle linearization
returns plain success values, not a model error — the renderer emits exactly
the document it emits for an input with no sections at all, and the section
hierarchy is the ordinary empty list.  No error value of any kind exists in
the code. -/
theorem cycle_no_model_error_counterexample :
    generateResumeHTML [] [cycleSectA, cycleSectB] { format := none }
        = generateResumeHTML [] [] { format := none } ∧
      getSectionHierarchy [cycleSectA, cycleSectB] = [] := by
  exact ⟨rfl, rfl⟩

/-- Claim C3 (amended): a parent cycle between two sections is silently
dropped, not reported: the renderer keeps only sections with falsy
`parentSection`, so it produces the same document as for no sections, and the
hierarchy builder, which only descends from the roots, returns the ordinary
empty hierarchy at every recursion bound — terminating without ever visiting
the cycle. -/
theorem cycle_sections_silently_dropped (A B : Sect) (els : List Element)
    (opts : RenderOptions) (hA : A.parentSection = some B.id)
    (hB : B.parentSection = some A.id) (hAid : A.id ≠ "") (hBid : B.id ≠ "") :
    generateResumeHTML els [A, B] opts = generateResumeHTML els [] opts ∧
      ∀ fuel : Nat, buildHierarchy [A, B] fuel none = [] := by
  have hfA : truthyStr A.parentSection = true := by
    rw [hA]; simpa [truthyStr] using hBid
  have hfB : truthyStr B.parentSection = true := by
    rw [hB]; simpa [truthyStr] using hAid
  have hfilter : ([A, B].filter fun s => !truthyStr s.parentSection) = [] := by
    simp [List.filter, hfA, hfB]
  constructor
  · simp only [generateResumeHTML, hfilter, List.filter_nil]
  · intro fuel
    cases fuel with
    | zero => rfl
    | succ n =>
      have h2 : ([A, B].filter fun s => s.parentSection == none) = [] := by
        simp [List.filter, hA, hB]
      simp [buildHierarchy, h2]

/-- Claim C3, witness: the amended statement instantiated at the concrete
two-section cycle. -/
theorem cycle_sections_silently_dropped_witness :
    generateResumeHTML [] [cycleSectA, cycleSectB] { format := none }
        = generateResumeHTML [] [] { format := none } ∧
      buildHierarchy [cycleSectA, cycleSectB] 7 none = [] := by
  have h := cycle_sections_silently_dropped cycleSectA cycleSectB [] { format := none }
    rfl rfl (by decide) (by decide)
  exact ⟨h.1, h.2 7⟩

/-- An element with no style properties set. -/
def plainEl : Element := { mkEl "p1" 0 0 with content := "Hello" }

/-- An element carrying two style properties. -/
def styledEl : Element :=
  { plainEl with fontSize := some 14, color := some "#333" }

set_option maxRecDepth 100000 in
/-- Claim C6, counterexample: an element with no style properties is still
emitted with a `style` attribute — `style=""` occurs in the document — rather
than the attribute being omitted. -/
theorem empty_style_attribute_counterexample :
    buildElementStyles plainEl = "" ∧
      containsSeq "style=\"\"".data
        (generateResumeHTML [plainEl] [] { format := none }).data = true := by
  exact ⟨rfl, rfl⟩

set_option maxRecDepth 100000 in
/-- Claim C6 (amended): the inline style string concatenates only the
properties present on the element, each as `property: value` joined by `; `
(with `font-family` also given a `, sans-serif` fallback), but the `style`
attribute itself is always emitted — as `style=""` when no properties are
set. -/
theorem style_string_only_present_properties :
    (∀ el : Element, el.fontSize = none → el.fontWeight = none →
      el.fontFamily = none → el.color = none → el.textAlign = none →
      el.lineHeight = none → buildElementStyles el = "") ∧
      buildElementStyles styledEl = "font-size: 14pt; color: #333" ∧
      containsSeq "style=\"font-size: 14pt; color: #333\"".data
        (generateResumeHTML [styledEl] [] { format := none }).data = true ∧
      containsSeq "style=\"\"".data
        (generateResumeHTML [plainEl] [] { format := none }).data = true := by
  refine ⟨?_, rfl, rfl, rfl⟩
  intro el h1 h2 h3 h4 h5 h6
  simp [buildElementStyles, pushIfNum, pushIfStr, h1, h2, h3, h4, h5, h6,
    String.intercalate]

/-- Claim C6, witness: the all-absent clause applied to the concrete
style-free element. -/
theorem style_string_only_present_properties_witness :
    buildElementStyles plainEl = "" :=
  style_string_only_present_properties.1 plainEl rfl rfl rfl rfl rfl rfl

/-- One replacement pass distributes over list concatenation. -/
theorem replaceChar_append (c : Char) (rep l1 l2 : List Char) :
    replaceChar c rep (l1 ++ l2) = replaceChar c rep l1 ++ replaceChar c rep l2 := by
  simp [replaceChar]

/-- Pushing a single character through the four later passes equals the
single-pass map: the entities introduced by the `&` pass are never rewritten
again. -/
theorem escape_chain_char (x : Char) :
    replaceChar '\'' "&#039;".data (replaceChar '"' "&quot;".data
      (replaceChar '>' "&gt;".data (replaceChar '<' "&lt;".data
        (if x = '&' then "&amp;".data else [x])))) = escMap x := by
  by_cases h1 : x = '&'
  · subst h1; rfl
  by_cases h2 : x = '<'
  · subst h2; rfl
  by_cases h3 : x = '>'
  · subst h3; rfl
  by_cases h4 : x = '"'
  · subst h4; rfl
  by_cases h5 : x = '\''
  · subst h5; rfl
  simp [replaceChar, escMap, h1, h2, h3, h4, h5]

/-- The five sequential passes equal one simultaneous per-character pass. -/
theorem escape_chain_list (l : List Char) :
    replaceChar '\'' "&#039;".data (replaceChar '"' "&quot;".data
      (replaceChar '>' "&gt;".data (replaceChar '<' "&lt;".data
        (replaceChar '&' "&amp;".data l)))) = l.flatMap escMap := by
  induction l with
  | nil => rfl
  | cons x xs ih =>
    have hx : replaceChar '&' "&amp;".data (x :: xs)
        = (if x = '&' then "&amp;".data else [x]) ++ replaceChar '&' "&amp;".data xs := by
      simp [replaceChar]
    rw [hx, replaceChar_append, replaceChar_append, replaceChar_append,
      replaceChar_append, escape_chain_char, ih, List.flatMap_cons]

/-- The element of the HTML-escaping scenario. -/
def scriptEl : Element :=
  { mkEl "s1" 0 0 with content := "<script>alert(1)</script> & \"quote\"" }

set_option maxRecDepth 100000 in
/-- Claim C7: the server's chained escape equals the helpers' one-pass
substitution over exactly the five characters (`&` first, so nothing is
double-escaped), and the scenario element renders with `&lt;script&gt;`,
`&amp;` and `&quot;` present and no literal `<script>`. -/
theorem escape_covers_five_chars_once :
    (∀ s : String, escapeHTML s = escapeHtml s) ∧
      escapeHTML scriptEl.content
        = "&lt;script&gt;alert(1)&lt;/script&gt; &amp; &quot;quote&quot;" ∧
      containsSeq "&lt;script&gt;".data
        (generateResumeHTML [scriptEl] [] { format := none }).data = true ∧
      containsSeq "&amp;".data
        (generateResumeHTML [scriptEl] [] { format := none }).data = true ∧
      containsSeq "&quot;".data
        (generateResumeHTML [scriptEl] [] { format := none }).data = true ∧
      containsSeq "<script>".data
        (generateResumeHTML [scriptEl] [] { format := none }).data = false := by
  refine ⟨?_, rfl, rfl, rfl, rfl, rfl⟩
  intro s
  unfold escapeHTML escapeHtml
  split
  · rename_i h; rw [h]; rfl
  · exact congrArg String.mk (escape_chain_list s.data)

/-! ### Template fill engine and the generate route (server.js) -/

/-- The `personalInfo` record of the user data. -/
structure PersonalInfo where
  name : Option String
  email : Option String
  phone : Option String
  location : Option String
  linkedin : Option String
  website : Option String
  deriving DecidableEq, Repr

/-- One experience entry; only `title` and `description` are consulted. -/
structure ExperienceItem where
  title : Option String
  description : Option String
  deriving DecidableEq, Repr

/-- One education entry; only the number of entries is consulted. -/
structure EducationItem where
  degree : Option String
  deriving DecidableEq, Repr

/-- The user data of `POST /api/resume/generate` (the fields the fill and
scoring code reads; `certifications`/`languages` are never consulted). -/
structure UserData where
  personalInfo : Option PersonalInfo
  summary : Option String
  experience : List ExperienceItem
  education : List EducationItem
  skills : List String
  deriving DecidableEq, Repr

/-- `userData.personalInfo?.f || ''`. -/
def personalField (u : UserData) (f : PersonalInfo → Option String) : String :=
  match u.personalInfo with
  | some p => orDefault (f p) ""
  | none => ""

/-- Truthiness of `userData.personalInfo?.f`. -/
def personalTruthy (u : UserData) (f : PersonalInfo → Option String) : Bool :=
  match u.personalInfo with
  | some p => truthyStr (f p)
  | none => false

/-- `generateSummary` (server.js): fixed template built from the first
experience title and the experience count (its `jobDescription` parameter and
its unused `name` binding play no part). -/
def generateSummary (u : UserData) (_jobDescription : Option String) : String :=
  let title := match u.experience.head? with
    | some e => orDefault e.title "Professional"
    | none => "Professional"
  let yearsExp := u.experience.length
  title ++ " with " ++ toString yearsExp ++
    "+ years of experience in delivering high-quality results. Proven track record of success in fast-paced environments. Strong technical skills and commitment to excellence."

/-- `text.trim()` over JS whitespace. -/
def trimJs (s : List Char) : List Char :=
  ((s.dropWhile isJsSpace).reverse.dropWhile isJsSpace).reverse

/-- `replace(/\s+/g, ' ')`: every whitespace run becomes a single space (after
this pass every space in the output marks a former whitespace run). -/
def collapseRuns (s : List Char) : List Char :=
  s.foldr
    (fun c acc =>
      if isJsSpace c then
        match acc with
        | ' ' :: _ => acc
        | _ => ' ' :: acc
      else c :: acc) []

/-- `optimizeContent` (server.js): falsy guard, trim, collapse whitespace,
then `replace(/^-\s*/gm, '• ')` — after collapsing, the only line start left
is the start of the string.  The `jobDescription` parameter is unused by the
placeholder implementation. -/
def optimizeContent (content : String) (_jobDescription : String) : String :=
  if content = "" then ""
  else
    let collapsed := collapseRuns (trimJs content.data)
    match collapsed with
    | '-' :: rest => ⟨'•' :: ' ' :: rest.dropWhile isJsSpace⟩
    | l => ⟨l⟩

/-- Global case-insensitive replacement of a fixed token (`/\{tok\}/gi`): scan
left to right; where the lowercased input starts with the token, emit the
replacement and skip the token, else keep one character.  Fuel (one unit per
input position) makes the skip structural; `s.length` units always suffice. -/
def replaceTokenCI (tok rep : List Char) : Nat → List Char → List Char
  | 0, s => s
  | _ + 1, [] => []
  | fuel + 1, c :: rest =>
    if ((c :: rest).take tok.length).map Char.toLower == tok then
      rep ++ replaceTokenCI tok rep fuel ((c :: rest).drop tok.length)
    else c :: replaceTokenCI tok rep fuel rest

/-- String wrapper of `replaceTokenCI`. -/
def replaceTokenCIStr (tok rep s : String) : String :=
  ⟨replaceTokenCI tok.data rep.data s.data.length s.data⟩

/-- The `{summary}` step of the fill: guarded by the case-sensitive
`content.includes('{summary}')`, while the replacement regex itself is
case-insensitive; the value is `userData.summary || generateSummary(...)`. -/
def fillSummaryStep (u : UserData) (jobDescription : Option String)
    (c : String) : String :=
  if strIncludes c "{summary}" then
    replaceTokenCIStr "{summary}"
      (orDefault u.summary (generateSummary u jobDescription)) c
  else c

/-- The placeholder substitution of `POST /api/resume/generate` applied to one
element's content: six case-insensitive personal-info tokens, the guarded
summary token, then `optimizeContent` when a (truthy) job description was
supplied. -/
def fillContent (u : UserData) (jobDescription : Option String)
    (content : String) : String :=
  if content = "" then content
  else
    let c1 := replaceTokenCIStr "{name}" (personalField u (·.name)) content
    let c2 := replaceTokenCIStr "{email}" (personalField u (·.email)) c1
    let c3 := replaceTokenCIStr "{phone}" (personalField u (·.phone)) c2
    let c4 := replaceTokenCIStr "{location}" (personalField u (·.location)) c3
    let c5 := replaceTokenCIStr "{linkedin}" (personalField u (·.linkedin)) c4
    let c6 := replaceTokenCIStr "{website}" (personalField u (·.website)) c5
    let c7 := fillSummaryStep u jobDescription c6
    match jobDescription with
    | some jd => if jd = "" then c7 else optimizeContent c7 jd
    | none => c7

/-- `filledElements`: each element is copied with its content filled. -/
def fillElements (u : UserData) (jobDescription : Option String)
    (elements : List Element) : List Element :=
  elements.map fun el => { el with content := fillContent u jobDescription el.content }

/-- `filledSections`: sections whose titles match experience/education/skill
are flagged `filled` with an `itemCount` when the user data has entries. -/
def fillSections (u : UserData) (sections : List Sect) : List Sect :=
  sections.map fun s =>
    let s1 :=
      if strIncludes (lowerStr s.title) "experience" && !u.experience.isEmpty
      then { s with filled := true, itemCount := some u.experience.length } else s
    let s2 :=
      if strIncludes (lowerStr s.title) "education" && !u.education.isEmpty
      then { s1 with filled := true, itemCount := some u.education.length } else s1
    if strIncludes (lowerStr s.title) "skill" && !u.skills.isEmpty
    then { s2 with filled := true, itemCount := some u.skills.length } else s2

/-- Result of `calculateATSScore` (server.js); its `timestamp` field is wall
clock and outside the model. -/
structure ATSResult where
  score : Nat
  checks : List String
  deriving DecidableEq, Repr

/-- `calculateATSScore` (server.js): the additive checklist, capped at 100.
The `elements` parameter is accepted and, as in the source, never read. -/
def calculateATSScore (u : UserData) (sections : List Sect)
    (_elements : List Element) : ATSResult :=
  let hasName := personalTruthy u (·.name)
  let hasEmail := personalTruthy u (·.email)
  let hasPhone := personalTruthy u (·.phone)
  let hasLocation := personalTruthy u (·.location)
  let expNonempty := !u.experience.isEmpty
  let hasDescriptions := u.experience.any fun e => truthyStr e.description
  let eduNonempty := !u.education.isEmpty
  let skillsLen := u.skills.length
  let hasSummary := match u.summary with
    | some s => s != "" && decide (50 < s.length)
    | none => false
  let stdCount := (sections.filter fun s =>
    (["experience", "education", "skills", "summary"].any fun std =>
      strIncludes (lowerStr s.title) std)).length
  let score :=
    (if hasName then 5 else 0) + (if hasEmail then 5 else 0) +
    (if hasPhone then 5 else 0) + (if hasLocation then 5 else 0) +
    (if expNonempty then 15 else 0) +
    (if expNonempty && hasDescriptions then 10 else 0) +
    (if eduNonempty then 15 else 0) +
    (if 5 ≤ skillsLen then 15 else if 0 < skillsLen then 8 else 0) +
    (if hasSummary then 10 else 0) +
    (if 3 ≤ stdCount then 15 else 0)
  let checks :=
    (if hasName then ["Has name"] else []) ++
    (if hasEmail then ["Has email"] else []) ++
    (if hasPhone then ["Has phone"] else []) ++
    (if hasLocation then ["Has location"] else []) ++
    (if expNonempty then ["Has work experience"] else []) ++
    (if expNonempty && hasDescriptions then ["Experience has descriptions"] else []) ++
    (if eduNonempty then ["Has education"] else []) ++
    (if 5 ≤ skillsLen then ["Has 5+ skills"]
     else if 0 < skillsLen then ["Has some skills"] else []) ++
    (if hasSummary then ["Has professional summary"] else []) ++
    (if 3 ≤ stdCount then ["Has standard sections"] else [])
  { score := min score 100, checks := checks }

/-- A stored template (`template.elements`/`template.sections`; the
`canvasSettings` are never read by the generate flow). -/
structure Template where
  elements : List Element
  sections : List Sect
  deriving DecidableEq, Repr

/-- A stored generated resume (ids and wall-clock timestamps are produced by
impure sources and passed in / omitted). -/
structure ResumeRecord where
  templateId : String
  filledElements : List Element
  filledSections : List Sect
  atsScore : Nat
  atsChecks : List String
  deriving DecidableEq, Repr

/-- The server's in-memory storage maps. -/
structure Storage where
  templates : List (String × Template)
  resumes : List (String × ResumeRecord)
  deriving DecidableEq, Repr

/-- The core of `POST /api/resume/generate`: look the template up, deep-clone
it (`JSON.parse(JSON.stringify(...))` — a value copy), fill elements and
sections from the user data, score, store the resume, return the record.
`none` models the 404 reply. -/
def generateResume (st : Storage) (templateId : String) (u : UserData)
    (jobDescription : Option String) (resumeId : String) :
    Storage × Option ResumeRecord :=
  match st.templates.lookup templateId with
  | none => (st, none)
  | some t =>
    let filledElements := fillElements u jobDescription t.elements
    let filledSections := fillSections u t.sections
    let ats := calculateATSScore u filledSections filledElements
    let record : ResumeRecord :=
      { templateId := templateId, filledElements := filledElements,
        filledSections := filledSections, atsScore := ats.score,
        atsChecks := ats.checks }
    ({ st with resumes := (resumeId, record) :: st.resumes }, some record)

/-- Claim C9: the generate flow never mutates the stored template — the
template store after the call is exactly the one before — and running it twice
with the same template id and user data produces structurally equal filled
outputs.  (The JSON stringify/parse clone further makes the two JS outputs
share no object references; reference identity has no counterpart in value
semantics.) -/
theorem fill_preserves_template_and_is_deterministic (st : Storage)
    (tid : String) (u : UserData) (jd : Option String) (id1 id2 : String) :
    (generateResume st tid u jd id1).1.templates = st.templates ∧
      ((generateResume (generateResume st tid u jd id1).1 tid u jd id2).2).map
          (fun r => (r.filledElements, r.filledSections))
        = ((generateResume st tid u jd id1).2).map
          (fun r => (r.filledElements, r.filledSections)) := by
  cases h : st.templates.lookup tid <;> simp [generateResume, h]

/-- The concrete user data of the fill scenarios. -/
def userJane : UserData :=
  { personalInfo := some
      { name := some "Jane", email := some "jane@x.com", phone := some "555-111-2222",
        location := some "NYC", linkedin := some "linkedin.com/in/jane",
        website := some "jane.dev" },
    summary := some "Engineer with a decade of shipped systems and measurable impact.",
    experience := [{ title := some "Engineer", description := some "Led things" }],
    education := [{ degree := some "BSc" }],
    skills := ["lean", "js"] }

/-- Claim C10: the summary token is guarded by a case-sensitive
`includes('{summary}')` although the replacement regex is case-insensitive —
content whose only summary token is spelled `{Summary}` passes through the
whole fill unchanged — while the six personal-info tokens substitute
case-insensitively. -/
theorem summary_guard_case_sensitive :
    (∀ (u : UserData) (jd : Option String) (c : String),
      strIncludes c "{summary}" = false → fillSummaryStep u jd c = c) ∧
      fillContent userJane none "Summary: {Summary}" = "Summary: {Summary}" ∧
      fillContent userJane none "{Name} <{EMAIL}>" = "Jane <jane@x.com>" := by
  refine ⟨?_, rfl, rfl⟩
  intro u jd c h
  simp [fillSummaryStep, h]

/-- Claim C10, witness: the guard clause applied to the concrete
capitalized-token content. -/
theorem summary_guard_case_sensitive_witness :
    fillSummaryStep userJane none "Summary: {Summary}" = "Summary: {Summary}" :=
  summary_guard_case_sensitive.1 userJane none "Summary: {Summary}" rfl

/-! ### Client exports (useTemplateStorage.js) -/

/-- The DOM-based `escapeHtml` helper of useTemplateStorage.js
(`div.textContent = text; div.innerHTML`): serializing a text node escapes
exactly `&`, `<` and `>`. -/
def domEscMap (c : Char) : List Char :=
  if c = '&' then "&amp;".data
  else if c = '<' then "&lt;".data
  else if c = '>' then "&gt;".data
  else [c]

/-- The string form of the DOM-based escape. -/
def domEscapeHtml (s : String) : String := ⟨s.data.flatMap domEscMap⟩

/-- `content.replace(/^[•\x2d]\s*/, '')`: drop one leading `•` or `-` together
with the whitespace run after it; all other strings pass unchanged. -/
def stripBullet (s : String) : String :=
  match s.data with
  | [] => ""
  | c :: rest =>
    if c = '•' || c = '-' then ⟨rest.dropWhile isJsSpace⟩ else ⟨c :: rest⟩

/-- Uppercase a string (ASCII, as in the repository's data). -/
def upperStr (s : String) : String := ⟨s.data.map Char.toUpper⟩

/-- `elements.sort((a, b) => a.y - b.y)`: the extra by-`y` sort applied to a
section's elements in `exportATSHTML`. -/
def sortElsByY (els : List Element) : List Element :=
  List.insertionSort (fun a b => a.y ≤ b.y) els

/-- `el.content?.startsWith('•')`. -/
def startsWithBullet (s : String) : Bool :=
  match s.data with
  | c :: _ => c = '•'
  | [] => false

/-- The heading tag of a header element in `exportATSHTML`:
`el.semanticTag || (el.fontSize > 20 ? 'h1' : 'p')`. -/
def exportHeaderTag (el : Element) : String :=
  orDefault el.semanticTag
    (if (match el.fontSize with | some q => decide (20 < q) | none => false) then "h1"
     else "p")

/-- The fixed document head of `exportATSHTML`, with the title interpolation. -/
def exportATSHead (templateName : String) : String :=
  "<!DOCTYPE html>\n<html lang=\"en\">\n<head>\n  <meta charset=\"UTF-8\">\n  <meta name=\"viewport\" content=\"width=device-width, initial-scale=1.0\">\n  <title>" ++
  templateName ++
  "</title>\n  <style>\n    body \x7b\n      font-family: Arial, Helvetica, sans-serif;\n      max-width: 800px;\n      margin: 0 auto;\n      padding: 40px;\n      line-height: 1.6;\n      color: #333;\n    \x7d\n    h1 \x7b font-size: 24px; margin-bottom: 8px; \x7d\n    h2 \x7b font-size: 18px; margin-top: 24px; border-bottom: 1px solid #ccc; padding-bottom: 4px; \x7d\n    h3 \x7b font-size: 16px; margin-bottom: 4px; \x7d\n    .contact \x7b font-size: 14px; color: #666; margin-bottom: 16px; \x7d\n    .section \x7b margin-bottom: 24px; \x7d\n    .entry \x7b margin-bottom: 16px; \x7d\n    ul \x7b margin: 8px 0; padding-left: 20px; \x7d\n    li \x7b margin-bottom: 4px; \x7d\n  </style>\n</head>\n<body>\n"

/-- One sub-section element line of `exportATSHTML`: list items (declared or
starting with `•`) get a one-item `<ul>` with the `•`/`-` prefix stripped,
everything else a `<p>`. -/
def exportSubElementLine (el : Element) : String :=
  if el.type == some "list-item" || startsWithBullet el.content then
    "      <ul><li>" ++ domEscapeHtml (stripBullet el.content) ++ "</li></ul>\n"
  else
    "      <p>" ++ domEscapeHtml el.content ++ "</p>\n"

/-- `exportATSHTML` (useTemplateStorage.js): semantic HTML export — header
elements, then each root section with either its sub-section entries, a flat
`<ul>` for `list-items` sections, or paragraphs.  The browser download side
effect is outside the model; the returned value is the `html` string. -/
def exportATSHTML (elements : List Element) (sections : List Sect)
    (templateName : String) : String :=
  let sortedElements := sortByReadingOrder elements
  let headerPart :=
    String.join ((sortedElements.filter fun el => !truthyStr el.parentSection).map
      fun el =>
        "  <" ++ exportHeaderTag el ++
          (if el.atsField == some "contact" then " class=\"contact\"" else "") ++
          ">" ++ domEscapeHtml el.content ++ "</" ++ exportHeaderTag el ++ ">\n")
  let rootSections := sortByY (sections.filter fun s => !truthyStr s.parentSection)
  exportATSHead templateName ++ headerPart ++
    String.join (rootSections.map fun s =>
      let sectionElements :=
        sortElsByY (sortedElements.filter fun el => el.parentSection == some s.id)
      let subSections := sortByY (sections.filter fun x => x.parentSection == some s.id)
      "\n  <section class=\"section\">\n" ++
        "    <h2>" ++ domEscapeHtml s.title ++ "</h2>\n" ++
        (if !subSections.isEmpty then
          String.join (subSections.map fun sub =>
            "    <div class=\"entry\">\n" ++
              "      <h3>" ++ domEscapeHtml sub.title ++ "</h3>\n" ++
              String.join ((sortedElements.filter fun el =>
                el.parentSection == some sub.id).map exportSubElementLine) ++
              "    </div>\n")
        else if s.contentType == some "list-items" then
          "    <ul>\n" ++
            String.join (sectionElements.map fun el =>
              "      <li>" ++ domEscapeHtml (stripBullet el.content) ++ "</li>\n") ++
            "    </ul>\n"
        else
          String.join (sectionElements.map fun el =>
            "    <p>" ++ domEscapeHtml el.content ++ "</p>\n")) ++
        "  </section>\n") ++
    "</body>\n</html>"

/-- `exportPlainText` (useTemplateStorage.js): header element contents, then
each root section as an upper-cased title, a 40-character rule, and its
(sub-)section element contents, each line verbatim — no bullet markers are
added or stripped.  The download side effect is outside the model; the
returned value is the `text` string. -/
def exportPlainText (elements : List Element) (sections : List Sect) : String :=
  let sortedElements := sortByReadingOrder elements
  let headerPart :=
    String.join ((sortedElements.filter fun el => !truthyStr el.parentSection).map
      fun el => el.content ++ "\n")
  let rootSections := sortByY (sections.filter fun s => !truthyStr s.parentSection)
  headerPart ++ "\n" ++
    String.join (rootSections.map fun s =>
      let sectionElements := sortedElements.filter fun el => el.parentSection == some s.id
      let subSections := sortByY (sections.filter fun x => x.parentSection == some s.id)
      upperStr s.title ++ "\n" ++ String.mk (List.replicate 40 '─') ++ "\n" ++
        (if !subSections.isEmpty then
          String.join (subSections.map fun sub =>
            "\n" ++ sub.title ++ "\n" ++
              String.join ((sortedElements.filter fun el =>
                el.parentSection == some sub.id).map fun el => el.content ++ "\n"))
        else
          String.join (sectionElements.map fun el => el.content ++ "\n")) ++
        "\n")

/-- The `list-items` section of the bullet scenarios. -/
def listSect : Sect := { mkSect "s1" "Skills" 100 with contentType := some "list-items" }

/-- An element already carrying a `•` bullet, inside the list section. -/
def bulletEl : Element :=
  { mkEl "b1" 0 0 with content := "• Led a team", parentSection := some "s1" }

/-- An element with a numeral-dot prefix, inside the list section. -/
def numberedEl : Element :=
  { mkEl "n1" 0 0 with content := "1. Led a team", parentSection := some "s1" }

set_option maxRecDepth 100000 in
/-- Claim C8, counterexample: a numeral-dot prefix is not stripped — the HTML
export keeps `1.` inside the `<li>`, so the list marker and the numeral double
up, contrary to the claimed `•`/`-`/numeral-dot stripping. -/
theorem numeral_prefix_not_stripped :
    containsSeq "<li>1. Led a team</li>".data
        (exportATSHTML [numberedEl] [listSect] "Resume").data = true ∧
      containsSeq "<li>Led a team</li>".data
        (exportATSHTML [numberedEl] [listSect] "Resume").data = false := by
  exact ⟨rfl, rfl⟩

set_option maxRecDepth 100000 in
/-- Claim C8 (amended): only a literal `•` or `-` prefix is stripped, and only
in the HTML export, where the `<li>` supplies the marker (numeral-dot prefixes
stay); the plain-text export emits element content verbatim — it adds no
marker — so the `•`-prefixed scenario content still renders with exactly one
bullet glyph. -/
theorem bullet_strip_only_in_html_export :
    (∀ rest : List Char, stripBullet ⟨'•' :: rest⟩ = ⟨rest.dropWhile isJsSpace⟩) ∧
      (∀ rest : List Char, stripBullet ⟨'-' :: rest⟩ = ⟨rest.dropWhile isJsSpace⟩) ∧
      (∀ (c : Char) (rest : List Char), c ≠ '•' → c ≠ '-' →
        stripBullet ⟨c :: rest⟩ = ⟨c :: rest⟩) ∧
      containsSeq "<li>Led a team</li>".data
        (exportATSHTML [bulletEl] [listSect] "Resume").data = true ∧
      containsSeq "• Led a team\n".data
        (exportPlainText [bulletEl] [listSect]).data = true ∧
      ((exportPlainText [bulletEl] [listSect]).data.filter (· = '•')).length = 1 := by
  refine ⟨?_, ?_, ?_, rfl, rfl, rfl⟩
  · intro rest; simp [stripBullet]
  · intro rest; simp [stripBullet]
  · intro c rest h1 h2; simp [stripBullet, h1, h2]

/-- Claim C8, witness: the no-bullet clause applied at a concrete character. -/
theorem bullet_strip_only_in_html_export_witness :
    stripBullet ⟨'L' :: "ed a team".data⟩ = ⟨'L' :: "ed a team".data⟩ :=
  bullet_strip_only_in_html_export.2.2.1 'L' "ed a team".data
    (by decide) (by decide)

end Builder
